import Mathlib

/-!
Shallow embedding of the dualjoy firmware core (src/dualjoy.c): the
debounced input pipeline, the direction encoder, the wraparound-safe
clock helpers, the report builder and differ, and the LED indicator
state machine.  Machine integers are modelled as Nat with explicit
reduction modulo 2 to the 32 where the C code relies on uint32_t wrap.
-/

namespace DualJoy

/-- Modulus of the 32-bit microsecond counter and of all uint32_t arithmetic. -/
def U32 : Nat := 4294967296

/-! Constants from the anonymous enum in src/dualjoy.c lines 47-55. -/

def BLINK_OFF : Nat := 0
def BLINK_NOT_MOUNTED : Nat := 250 * 1000
def BLINK_SUSPENDED : Nat := 2500 * 1000
def DEBOUNCE_TIMEOUT_US : Nat := 20 * 1000
def EVENT_FLASH_US : Nat := 30 * 1000
def BLINK_FAST_US : Nat := 50 * 1000
def MAX_DELAY_US : Nat := BLINK_SUSPENDED

/-! GPIO numbers, enum gpio (src/dualjoy.c lines 70-82). -/

def J1_UP : Nat := 5
def J1_DOWN : Nat := 4
def J1_LEFT : Nat := 3
def J1_RIGHT : Nat := 2
def J1_BTN : Nat := 27

def J2_UP : Nat := 9
def J2_DOWN : Nat := 8
def J2_LEFT : Nat := 7
def J2_RIGHT : Nat := 6
def J2_BTN : Nat := 26

/-- J1_MASK (src/dualjoy.c line 84). -/
def J1_MASK : Nat :=
  2 ^ J1_UP ||| 2 ^ J1_DOWN ||| 2 ^ J1_LEFT ||| 2 ^ J1_RIGHT ||| 2 ^ J1_BTN

/-- J2_MASK (src/dualjoy.c line 85). -/
def J2_MASK : Nat :=
  2 ^ J2_UP ||| 2 ^ J2_DOWN ||| 2 ^ J2_LEFT ||| 2 ^ J2_RIGHT ||| 2 ^ J2_BTN

/-- PIN_MASK (src/dualjoy.c line 87). -/
def PIN_MASK : Nat := J1_MASK ||| J2_MASK

/-! Logical line indices, enum pin (src/dualjoy.c lines 89-97). -/

def UP : Nat := 0
def DOWN : Nat := 1
def LEFT : Nat := 2
def RIGHT : Nat := 3
def BTN : Nat := 4
def PIN_NUM : Nat := 5
def TOTAL_PIN_NUM : Nat := PIN_NUM * 2

/-- inputGPIOs array (src/dualjoy.c lines 99-102). -/
def inputGPIOs : List Nat :=
  [J1_UP, J1_DOWN, J1_LEFT, J1_RIGHT, J1_BTN,
   J2_UP, J2_DOWN, J2_LEFT, J2_RIGHT, J2_BTN]

/-- inputMasks array (src/dualjoy.c lines 104-107). -/
def inputMasks : List Nat :=
  [2 ^ J1_UP, 2 ^ J1_DOWN, 2 ^ J1_LEFT, 2 ^ J1_RIGHT, 2 ^ J1_BTN,
   2 ^ J2_UP, 2 ^ J2_DOWN, 2 ^ J2_LEFT, 2 ^ J2_RIGHT, 2 ^ J2_BTN]

/-- The sparse gpio-to-logical-pin lookup table, a designated-initializer
uint8_t array of length 32 whose unlisted entries are zero
(src/dualjoy.c lines 109-120). -/
def gpio2pin (g : Nat) : Nat :=
  if g = J1_UP then UP
  else if g = J1_DOWN then DOWN
  else if g = J1_LEFT then LEFT
  else if g = J1_RIGHT then RIGHT
  else if g = J1_BTN then BTN
  else if g = J2_UP then PIN_NUM + UP
  else if g = J2_DOWN then PIN_NUM + DOWN
  else if g = J2_LEFT then PIN_NUM + LEFT
  else if g = J2_RIGHT then PIN_NUM + RIGHT
  else if g = J2_BTN then PIN_NUM + BTN
  else 0

/-- states2direction (src/dualjoy.c lines 125-148).  The C function takes
a pointer into the inputMasks array; here the mask argument is the suffix
of that list starting at the pointed-to element, read with getD like the
C index accesses mask[UP] .. mask[RIGHT]. -/
def states2direction (pin_states : Nat) (mask : List Nat) : Nat :=
  if pin_states &&& mask.getD UP 0 ≠ 0 then
    if pin_states &&& mask.getD RIGHT 0 ≠ 0 then 2       -- NE
    else if pin_states &&& mask.getD LEFT 0 ≠ 0 then 8   -- NW
    else 1                                               -- N
  else if pin_states &&& mask.getD DOWN 0 ≠ 0 then
    if pin_states &&& mask.getD RIGHT 0 ≠ 0 then 4       -- SE
    else if pin_states &&& mask.getD LEFT 0 ≠ 0 then 6   -- SW
    else 5                                               -- S
  else if pin_states &&& mask.getD RIGHT 0 ≠ 0 then 3    -- E
  else if pin_states &&& mask.getD LEFT 0 ≠ 0 then 7     -- W
  else 0                                                 -- Center

/-- reached (src/dualjoy.c lines 150-153): overflow safe time comparison,
t - time_us_32() computed in uint32_t arithmetic.  The current counter
value time_us_32() is passed explicitly as the argument now. -/
def reached (t now : Nat) : Bool :=
  t == 0 || decide ((U32 + t - now) % U32 > MAX_DELAY_US)

/-- time_after_us (src/dualjoy.c lines 155-158): clamp the delay, add the
current counter value with uint32_t wrap, and force the low bit to 1. -/
def time_after_us (now us : Nat) : Nat :=
  let us2 := if us > MAX_DELAY_US then MAX_DELAY_US else us
  ((now + us2) % U32) ||| 1

/-- fast_log2_of_pow2 (src/dualjoy.c lines 232-240): de Bruijn multiply,
shift by 27, table lookup.  The multiplication wraps in uint32_t. -/
def deBruijnSequence : Nat := 0x077CB531

/-- The 32-entry lookup table of fast_log2_of_pow2 (src/dualjoy.c
lines 234-237). -/
def lookupTable : List Nat :=
  [0, 1, 28, 2, 29, 14, 24, 3, 30, 22, 20, 15, 25, 17, 4, 8,
   31, 27, 13, 23, 21, 19, 16, 7, 26, 12, 18, 6, 11, 5, 10, 9]

/-- fast_log2_of_pow2 (src/dualjoy.c lines 232-240). -/
def fast_log2_of_pow2 (x : Nat) : Nat :=
  lookupTable.getD (((x * deBruijnSequence) % U32) >>> 27) 0

/-- Encodes the four directional booleans of device 1 as a pin_states
word, one bit per asserted line, at the J1 GPIO positions. -/
def j1DirStates (u d l r : Bool) : Nat :=
  (if u then 2 ^ J1_UP else 0) ||| (if d then 2 ^ J1_DOWN else 0) |||
  (if l then 2 ^ J1_LEFT else 0) ||| (if r then 2 ^ J1_RIGHT else 0)

/-- Encodes the four directional booleans of device 2 as a pin_states
word, one bit per asserted line, at the J2 GPIO positions. -/
def j2DirStates (u d l r : Bool) : Nat :=
  (if u then 2 ^ J2_UP else 0) ||| (if d then 2 ^ J2_DOWN else 0) |||
  (if l then 2 ^ J2_LEFT else 0) ||| (if r then 2 ^ J2_RIGHT else 0)

/-- The report struct (src/dualjoy.c lines 182-185). -/
structure report where
  direction : Nat
  buttons : Nat
deriving DecidableEq

/-- The mutable globals and function statics of src/dualjoy.c gathered
into one state record: pin_states and pin_timeouts (lines 122-123), the
last_r1/last_r2/sent_r1/sent_r2/last_states statics of send_states
(lines 191-195), the LED globals led_state, blink_interval_us and
blink_timeout_us (lines 59-61), and the next_us static of
led_blinking_task (line 282). -/
structure DJState where
  pinStates : Nat
  pinTimeouts : List Nat
  lastR1 : report
  lastR2 : report
  sentR1 : report
  sentR2 : report
  lastStates : Nat
  ledState : Bool
  blinkIntervalUs : Nat
  blinkTimeoutUs : Nat
  nextUs : Nat
deriving DecidableEq

/-- The initial values of those globals and statics at startup: all pin
states and timeouts zero, all four report statics zeroed, last_states 0,
LED off, blink interval BLINK_NOT_MOUNTED, blink timeout 0, next_us 0. -/
def initState : DJState :=
  { pinStates := 0
    pinTimeouts := List.replicate 10 0
    lastR1 := { direction := 0, buttons := 0 }
    lastR2 := { direction := 0, buttons := 0 }
    sentR1 := { direction := 0, buttons := 0 }
    sentR2 := { direction := 0, buttons := 0 }
    lastStates := 0
    ledState := false
    blinkIntervalUs := BLINK_NOT_MOUNTED
    blinkTimeoutUs := 0
    nextUs := 0 }

/-- led_flash (src/dualjoy.c lines 160-165): toggle the LED, set the
blink interval to BLINK_OFF and arm the flash timeout.  The call to
board_led_write mirrors ledState and is not modelled separately. -/
def led_flash (now : Nat) (s : DJState) : DJState :=
  { s with
    ledState := !s.ledState
    blinkIntervalUs := BLINK_OFF
    blinkTimeoutUs := time_after_us now EVENT_FLASH_US }

/-- led_set_blink_mode (src/dualjoy.c lines 167-174). -/
def led_set_blink_mode (interval : Nat) (s : DJState) : DJState :=
  let s1 := { s with blinkTimeoutUs := 0 }
  let s2 := if interval = BLINK_OFF then { s1 with ledState := false } else s1
  { s2 with blinkIntervalUs := interval }

/-- led_blink_fast_until (src/dualjoy.c lines 176-179). -/
def led_blink_fast_until (timeout : Nat) (s : DJState) : DJState :=
  { s with blinkTimeoutUs := timeout, blinkIntervalUs := BLINK_FAST_US }

/-- The body of the if (changes) block of send_states (src/dualjoy.c
lines 197-209): recompute last_r1 when a device 1 line changed,
last_r2 when a device 2 line changed, then record last_states. -/
def build_reports (s : DJState) : DJState :=
  let changes := s.lastStates ^^^ s.pinStates
  if changes ≠ 0 then
    let r1 :=
      if changes &&& J1_MASK ≠ 0 then
        { direction := states2direction s.pinStates inputMasks,
          buttons := if s.pinStates &&& inputMasks.getD BTN 0 ≠ 0 then 1 else 0 }
      else s.lastR1
    let r2 :=
      if changes &&& J2_MASK ≠ 0 then
        { direction := states2direction s.pinStates (inputMasks.drop PIN_NUM),
          buttons := if s.pinStates &&& inputMasks.getD (PIN_NUM + BTN) 0 ≠ 0 then 1 else 0 }
      else s.lastR2
    { s with lastR1 := r1, lastR2 := r2, lastStates := s.pinStates }
  else s

/-- send_states (src/dualjoy.c lines 190-230).  The two boolean
arguments are the results the external tud_hid_n_report transport would
return for device 1 and device 2 if called this tick; the two Option
outputs record the report offered to the transport for each device
(none when the candidate equals the sent cache and no call is made). -/
def send_states (ok1 ok2 : Bool) (now : Nat) (s0 : DJState) : DJState × Option report × Option report :=
  let s := build_reports s0
  let p1 : DJState × Option report :=
    if s.sentR1 ≠ s.lastR1 then
      if ok1 then ({ led_flash now s with sentR1 := s.lastR1 }, some s.lastR1)
      else (s, some s.lastR1)
    else (s, none)
  let s1 := p1.1
  let p2 : DJState × Option report :=
    if s1.sentR2 ≠ s1.lastR2 then
      if ok2 then ({ led_flash now s1 with sentR2 := s1.lastR2 }, some s1.lastR2)
      else (s1, some s1.lastR2)
    else (s1, none)
  (p2.1, p1.2, p2.2)

/-- The while (changes) loop of update_states_task (src/dualjoy.c
lines 247-259): isolate the least significant changed bit with
changes & -changes (the twos-complement negation is U32 - changes), clear
it with changes &= ~mask (complement is xor with U32 - 1), find its
position, and commit the flip plus a re-armed debounce timeout when the
timeout of that line is unset or passed.  Each iteration removes one
set bit, so a fuel of 32 never runs out for a 32-bit changes word. -/
def debounceLoop (now : Nat) : Nat → Nat → Nat → List Nat → Nat × List Nat
  | 0, _, ps, ts => (ps, ts)
  | fuel + 1, changes, ps, ts =>
    if changes = 0 then (ps, ts)
    else
      let mask := changes &&& (U32 - changes)
      let changes2 := changes &&& ((U32 - 1) ^^^ mask)
      let i := fast_log2_of_pow2 mask
      if reached (ts.getD (gpio2pin i) 0) now then
        debounceLoop now fuel changes2 (ps ^^^ mask)
          (ts.set (gpio2pin i) (time_after_us now DEBOUNCE_TIMEOUT_US))
      else
        debounceLoop now fuel changes2 ps ts

/-- update_states_task (src/dualjoy.c lines 242-262): invert the raw
gpio_get_all word (active-low inputs), mask to the joystick pins, run
the debounce loop on the changed bits, then run send_states.  The raw
argument is the uint32_t value gpio_get_all returned. -/
def update_states_task (raw now : Nat) (ok1 ok2 : Bool) (s : DJState) : DJState × Option report × Option report :=
  let pins := ((U32 - 1) ^^^ raw) &&& PIN_MASK
  let changes := pins ^^^ s.pinStates
  let r := debounceLoop now 32 changes s.pinStates s.pinTimeouts
  send_states ok1 ok2 now { s with pinStates := r.1, pinTimeouts := r.2 }

/-- tud_mount_cb (src/dualjoy.c lines 307-311). -/
def tud_mount_cb (now : Nat) (s : DJState) : DJState :=
  led_blink_fast_until (time_after_us now (1000 * 1000)) s

/-- tud_umount_cb (src/dualjoy.c lines 314-318). -/
def tud_umount_cb (s : DJState) : DJState :=
  led_set_blink_mode BLINK_NOT_MOUNTED s

/-- tud_suspend_cb (src/dualjoy.c lines 323-327). -/
def tud_suspend_cb (s : DJState) : DJState :=
  led_set_blink_mode BLINK_SUSPENDED s

/-- tud_resume_cb (src/dualjoy.c lines 330-338); the mounted argument is
the value tud_mounted() returns. -/
def tud_resume_cb (mounted : Bool) (now : Nat) (s : DJState) : DJState :=
  if mounted then led_blink_fast_until (time_after_us now (500 * 1000)) s
  else led_set_blink_mode BLINK_NOT_MOUNTED s

/-- led_blinking_task (src/dualjoy.c lines 280-300). -/
def led_blinking_task (now : Nat) (s : DJState) : DJState :=
  if s.blinkTimeoutUs ≠ 0 ∧ reached s.blinkTimeoutUs now = true then
    led_set_blink_mode BLINK_OFF s
  else if s.blinkIntervalUs = BLINK_OFF then s
  else if reached s.nextUs now = false then s
  else
    { s with
      nextUs := time_after_us now s.blinkIntervalUs
      ledState := !s.ledState }

/-! Helper lemmas shared by the claim theorems. -/

/-- Forcing the low bit of a Nat with a bitwise or by 1 makes the number
odd and leaves the other bits alone. -/
theorem lor_one_eq (x : Nat) : x ||| 1 = 2 * (x / 2) + 1 := by
  apply Nat.eq_of_testBit_eq
  intro i
  cases i with
  | zero =>
    simp [Nat.testBit_lor, Nat.testBit_zero]
    omega
  | succ n =>
    rw [Nat.testBit_lor]
    simp only [Nat.testBit_succ]
    have h1 : (1 : Nat) / 2 = 0 := rfl
    have h2 : (2 * (x / 2) + 1) / 2 = x / 2 := by omega
    rw [h1, h2]
    simp

/-- A deadline built by time_after_us is never the sentinel 0. -/
theorem time_after_us_ne_zero (now us : Nat) : time_after_us now us ≠ 0 := by
  simp only [time_after_us]
  rw [lor_one_eq]
  omega

/-- build_reports leaves every field except lastR1, lastR2 and
lastStates unchanged, and afterwards lastStates equals pinStates. -/
theorem build_reports_fields (s : DJState) :
    (build_reports s).pinStates = s.pinStates
    ∧ (build_reports s).pinTimeouts = s.pinTimeouts
    ∧ (build_reports s).sentR1 = s.sentR1
    ∧ (build_reports s).sentR2 = s.sentR2
    ∧ (build_reports s).ledState = s.ledState
    ∧ (build_reports s).blinkIntervalUs = s.blinkIntervalUs
    ∧ (build_reports s).blinkTimeoutUs = s.blinkTimeoutUs
    ∧ (build_reports s).nextUs = s.nextUs
    ∧ (build_reports s).lastStates = s.pinStates := by
  simp only [build_reports]
  split
  · exact ⟨rfl, rfl, rfl, rfl, rfl, rfl, rfl, rfl, rfl⟩
  · rename_i h
    have h2 : s.lastStates = s.pinStates := by
      have h0 : s.lastStates ^^^ s.pinStates = 0 := by
        by_contra hc
        exact h hc
      exact Nat.xor_eq_zero.mp h0
    exact ⟨rfl, rfl, rfl, rfl, rfl, rfl, rfl, rfl, h2⟩

/-- On a state whose lastStates already equals pinStates, build_reports
is the identity. -/
theorem build_reports_of_sync (s : DJState) (h : s.lastStates = s.pinStates) :
    build_reports s = s := by
  simp [build_reports, h, Nat.xor_self]

/-- Projections of send_states: pin fields pass through, the candidate
reports are the ones build_reports assembled, the offered reports are
exactly the candidates that differ from the sent caches, and a sent
cache advances to the candidate exactly when the diff fired and the
transport result was success. -/
theorem send_states_proj (b1 b2 : Bool) (now : Nat) (s0 : DJState) :
    (send_states b1 b2 now s0).1.pinStates = s0.pinStates
    ∧ (send_states b1 b2 now s0).1.pinTimeouts = s0.pinTimeouts
    ∧ (send_states b1 b2 now s0).1.lastR1 = (build_reports s0).lastR1
    ∧ (send_states b1 b2 now s0).1.lastR2 = (build_reports s0).lastR2
    ∧ (send_states b1 b2 now s0).1.lastStates = s0.pinStates
    ∧ (send_states b1 b2 now s0).2.1 =
        (if (build_reports s0).sentR1 ≠ (build_reports s0).lastR1
         then some ((build_reports s0).lastR1) else none)
    ∧ (send_states b1 b2 now s0).2.2 =
        (if (build_reports s0).sentR2 ≠ (build_reports s0).lastR2
         then some ((build_reports s0).lastR2) else none)
    ∧ (send_states b1 b2 now s0).1.sentR1 =
        (if (build_reports s0).sentR1 ≠ (build_reports s0).lastR1 ∧ b1 = true
         then (build_reports s0).lastR1 else s0.sentR1)
    ∧ (send_states b1 b2 now s0).1.sentR2 =
        (if (build_reports s0).sentR2 ≠ (build_reports s0).lastR2 ∧ b2 = true
         then (build_reports s0).lastR2 else s0.sentR2) := by
  obtain ⟨hp, ht, hs1, hs2, hl, hbi, hbt, hn, hls⟩ := build_reports_fields s0
  simp only [send_states, led_flash]
  split_ifs <;> simp_all

/-- When both transport results are failure, the LED fields are left
alone by send_states. -/
theorem send_states_led_no_success (now : Nat) (s0 : DJState) :
    (send_states false false now s0).1.ledState = s0.ledState
    ∧ (send_states false false now s0).1.blinkIntervalUs = s0.blinkIntervalUs
    ∧ (send_states false false now s0).1.blinkTimeoutUs = s0.blinkTimeoutUs := by
  obtain ⟨hp, ht, hs1, hs2, hl, hbi, hbt, hn, hls⟩ := build_reports_fields s0
  simp only [send_states, led_flash]
  split_ifs <;> simp_all

/-- When the device 1 diff fires with a successful transport result and
device 2 has nothing to offer, send_states performs exactly the led_flash
side effects on the LED fields. -/
theorem send_states_flash_dev1 (b2 : Bool) (now : Nat) (s0 : DJState)
    (h1 : (build_reports s0).sentR1 ≠ (build_reports s0).lastR1)
    (h2 : (build_reports s0).sentR2 = (build_reports s0).lastR2) :
    (send_states true b2 now s0).1.ledState = !s0.ledState
    ∧ (send_states true b2 now s0).1.blinkIntervalUs = BLINK_OFF
    ∧ (send_states true b2 now s0).1.blinkTimeoutUs = time_after_us now EVENT_FLASH_US := by
  obtain ⟨hp, ht, hs1, hs2, hl, hbi, hbt, hn, hls⟩ := build_reports_fields s0
  simp only [send_states, led_flash]
  split_ifs <;> simp_all

/-- The debounce loop does nothing when no bit changed, whatever fuel
is left. -/
theorem debounceLoop_zero (now ps : Nat) (ts : List Nat) :
    ∀ fuel, debounceLoop now fuel 0 ps ts = (ps, ts) := by
  intro fuel
  cases fuel <;> rfl

/-- Isolating the least significant set bit of a one-bit word by anding
with its two complement negation returns the word itself. -/
theorem pow_land_neg :
    ∀ g : Fin 32, 2 ^ (g : Nat) &&& (U32 - 2 ^ (g : Nat)) = 2 ^ (g : Nat) := by
  decide

/-- Clearing the isolated bit of a one-bit word empties it. -/
theorem pow_land_compl :
    ∀ g : Fin 32, 2 ^ (g : Nat) &&& ((U32 - 1) ^^^ 2 ^ (g : Nat)) = 0 := by
  decide

/-- The de Bruijn bit position of every one-bit word below 2 to the 32. -/
theorem fastLog2_pow :
    ∀ g : Fin 32, fast_log2_of_pow2 (2 ^ (g : Nat)) = (g : Nat) := by
  decide

/-- One-step unfolding of the debounce loop. -/
theorem debounceLoop_succ (now fuel changes ps : Nat) (ts : List Nat) :
    debounceLoop now (fuel + 1) changes ps ts =
      (if changes = 0 then (ps, ts)
       else
        let mask := changes &&& (U32 - changes)
        let changes2 := changes &&& ((U32 - 1) ^^^ mask)
        let i := fast_log2_of_pow2 mask
        if reached (ts.getD (gpio2pin i) 0) now then
          debounceLoop now fuel changes2 (ps ^^^ mask)
            (ts.set (gpio2pin i) (time_after_us now DEBOUNCE_TIMEOUT_US))
        else
          debounceLoop now fuel changes2 ps ts) := rfl

/-- The debounce loop on a single changed bit: flip the bit and re-arm
its timeout when the timeout is unset or passed, otherwise change
nothing. -/
theorem debounceLoop_single (now ps : Nat) (ts : List Nat) (g : Nat) (hg : g < 32) :
    debounceLoop now 32 (2 ^ g) ps ts =
      if reached (ts.getD (gpio2pin g) 0) now then
        (ps ^^^ 2 ^ g, ts.set (gpio2pin g) (time_after_us now DEBOUNCE_TIMEOUT_US))
      else (ps, ts) := by
  have hm := pow_land_neg ⟨g, hg⟩
  have hcc := pow_land_compl ⟨g, hg⟩
  have hl := fastLog2_pow ⟨g, hg⟩
  have hnz : (2 : Nat) ^ g ≠ 0 := (Nat.two_pow_pos g).ne'
  rw [show (32 : Nat) = 31 + 1 from rfl, debounceLoop_succ]
  simp only [if_neg hnz, hm, hcc, hl]
  split <;> simp [debounceLoop_zero]

end DualJoy

namespace DualJoy

/-- C1: for every one of the 16 combinations of the four directional
booleans of either logical device, states2direction returns the direction
code of the documented priority table: the up branch wins whenever up is
asserted (NE if right, NW if left, else N), otherwise the down branch
(SE if right, SW if left, else S), otherwise right alone gives E, left
alone gives W, and no axis active gives center; simultaneous left+right
resolves to the right-hand branch reached first.  Device 1 reads the
inputMasks array from its start, device 2 from offset PIN_NUM. -/
theorem states2direction_matches_priority_table :
    ∀ u d l r : Bool,
      states2direction (j1DirStates u d l r) inputMasks =
        (if u then (if r then 2 else if l then 8 else 1)
         else if d then (if r then 4 else if l then 6 else 5)
         else if r then 3
         else if l then 7
         else 0)
      ∧ states2direction (j2DirStates u d l r) (inputMasks.drop PIN_NUM) =
        (if u then (if r then 2 else if l then 8 else 1)
         else if d then (if r then 4 else if l then 6 else 5)
         else if r then 3
         else if l then 7
         else 0) := by
  decide

/-- C2: for every line (logical index from inputGPIOs), a debounce step
whose raw sample disagrees with the committed bit leaves the committed
pin state and the timeouts unchanged while the timeout of the line is
set and not yet passed; once the timeout is unset or has passed the
same disagreeing sample flips the committed bit and re-arms the timeout
to now plus the debounce window; and a sample equal to the committed
state is a no-op.  The raw sample word is ps xor the line bit, so the
changes word handed to the loop is exactly that one bit. -/
theorem debounce_line_spec (l : Fin 10) (ps now : Nat) (ts : List Nat) :
    (ts.getD (gpio2pin (inputGPIOs.getD (l : Nat) 0)) 0 ≠ 0 →
      reached (ts.getD (gpio2pin (inputGPIOs.getD (l : Nat) 0)) 0) now = false →
      debounceLoop now 32 ((ps ^^^ 2 ^ inputGPIOs.getD (l : Nat) 0) ^^^ ps) ps ts = (ps, ts))
    ∧ (reached (ts.getD (gpio2pin (inputGPIOs.getD (l : Nat) 0)) 0) now = true →
        debounceLoop now 32 ((ps ^^^ 2 ^ inputGPIOs.getD (l : Nat) 0) ^^^ ps) ps ts =
          (ps ^^^ 2 ^ inputGPIOs.getD (l : Nat) 0,
           ts.set (gpio2pin (inputGPIOs.getD (l : Nat) 0)) (time_after_us now DEBOUNCE_TIMEOUT_US)))
    ∧ debounceLoop now 32 (ps ^^^ ps) ps ts = (ps, ts) := by
  have hg : inputGPIOs.getD (l : Nat) 0 < 32 := by
    have h32 : ∀ m : Fin 10, inputGPIOs.getD (m : Nat) 0 < 32 := by decide
    exact h32 l
  have hx : (ps ^^^ 2 ^ inputGPIOs.getD (l : Nat) 0) ^^^ ps =
      2 ^ inputGPIOs.getD (l : Nat) 0 := by
    rw [Nat.xor_comm ps (2 ^ inputGPIOs.getD (l : Nat) 0), Nat.xor_cancel_right]
  refine ⟨?_, ?_, ?_⟩
  · intro h1 h2
    rw [hx, debounceLoop_single now ps ts _ hg, h2]
    simp
  · intro h
    rw [hx, debounceLoop_single now ps ts _ hg, h]
    simp
  · rw [Nat.xor_self]
    exact debounceLoop_zero now ps ts 32

/-- C2 witness: line 0 (GPIO 5, the device 1 up line).  With a pending
timeout value 5 at counter value 0 the disagreeing sample is suppressed;
with all timeouts unset the same sample commits and re-arms. -/
theorem debounce_line_spec_witness :
    debounceLoop 0 32 ((7 ^^^ 2 ^ inputGPIOs.getD ((0 : Fin 10) : Nat) 0) ^^^ 7) 7
        [5, 0, 0, 0, 0, 0, 0, 0, 0, 0] = (7, [5, 0, 0, 0, 0, 0, 0, 0, 0, 0])
    ∧ debounceLoop 0 32 ((0 ^^^ 2 ^ inputGPIOs.getD ((0 : Fin 10) : Nat) 0) ^^^ 0) 0
        (List.replicate 10 0) =
        (0 ^^^ 2 ^ inputGPIOs.getD ((0 : Fin 10) : Nat) 0,
         (List.replicate 10 0).set (gpio2pin (inputGPIOs.getD ((0 : Fin 10) : Nat) 0))
           (time_after_us 0 DEBOUNCE_TIMEOUT_US)) :=
  ⟨(debounce_line_spec 0 7 0 [5, 0, 0, 0, 0, 0, 0, 0, 0, 0]).1 (by decide) (by decide),
   (debounce_line_spec 0 0 0 (List.replicate 10 0)).2.1 (by decide)⟩

/-- C3: for each logical device, a failed send leaves the last-sent
cache unchanged; the identical candidate is offered again on the next
run of send_states while the debounced state has not further changed,
until a send succeeds; the cache advances to the candidate only on a
successful send, and the indicator event flash (LED toggle, interval
BLINK_OFF, flash timeout armed) fires only on a successful send (the
LED fields are untouched when every attempted send fails). -/
theorem send_states_retry_and_cache_law
    (s : DJState) (now now2 : Nat) (b1 b2 b1a b2a : Bool) (c : report) :
    ((send_states false b2 now s).1.sentR1 = s.sentR1)
    ∧ ((send_states b1 false now s).1.sentR2 = s.sentR2)
    ∧ ((send_states false b2 now s).2.1 = some c →
        (send_states b1a b2a now2 (send_states false b2 now s).1).2.1 = some c)
    ∧ ((send_states true b2 now s).2.1 = some c →
        (send_states true b2 now s).1.sentR1 = c)
    ∧ ((send_states false false now s).1.ledState = s.ledState
       ∧ (send_states false false now s).1.blinkIntervalUs = s.blinkIntervalUs
       ∧ (send_states false false now s).1.blinkTimeoutUs = s.blinkTimeoutUs)
    ∧ ((send_states true b2 now s).2.1 = some c →
        (send_states true b2 now s).2.2 = none →
        ((send_states true b2 now s).1.ledState = !s.ledState
         ∧ (send_states true b2 now s).1.blinkIntervalUs = BLINK_OFF
         ∧ (send_states true b2 now s).1.blinkTimeoutUs = time_after_us now EVENT_FLASH_US)) := by
  refine ⟨?_, ?_, ?_, ?_, send_states_led_no_success now s, ?_⟩
  · have h := (send_states_proj false b2 now s).2.2.2.2.2.2.2.1
    simp at h
    exact h
  · have h := (send_states_proj b1 false now s).2.2.2.2.2.2.2.2
    simp at h
    exact h
  · intro h
    obtain ⟨hp, ht, hr1, hr2, hls, hatt1, hatt2, hsent1, hsent2⟩ :=
      send_states_proj false b2 now s
    rw [hatt1] at h
    by_cases hc : (build_reports s).sentR1 ≠ (build_reports s).lastR1
    · rw [if_pos hc] at h
      have hceq : (build_reports s).lastR1 = c := by
        injection h
      set s1 := (send_states false b2 now s).1 with hs1def
      have hsync : s1.lastStates = s1.pinStates := by
        rw [hp, hls]
      have hbr : build_reports s1 = s1 := build_reports_of_sync s1 hsync
      obtain ⟨hp2, ht2, hr12, hr22, hls2, hatt12, hatt22, hsent12, hsent22⟩ :=
        send_states_proj b1a b2a now2 s1
      rw [hatt12, hbr]
      have hlast1 : s1.lastR1 = c := by rw [hr1, hceq]
      have hsent1v : s1.sentR1 = s.sentR1 := by
        rw [hsent1]
        simp
      have hne : s1.sentR1 ≠ s1.lastR1 := by
        rw [hsent1v, hlast1]
        intro he
        apply hc
        rw [hceq, ← he, (build_reports_fields s).2.2.1]
      rw [if_pos hne, hlast1]
    · rw [if_neg hc] at h
      exact absurd h (by simp)
  · intro h
    obtain ⟨hp, ht, hr1, hr2, hls, hatt1, hatt2, hsent1, hsent2⟩ :=
      send_states_proj true b2 now s
    rw [hatt1] at h
    by_cases hc : (build_reports s).sentR1 ≠ (build_reports s).lastR1
    · rw [if_pos hc] at h
      have hceq : (build_reports s).lastR1 = c := by injection h
      rw [hsent1, if_pos ⟨hc, rfl⟩, hceq]
    · rw [if_neg hc] at h
      exact absurd h (by simp)
  · intro h h2
    obtain ⟨hp, ht, hr1, hr2, hls, hatt1, hatt2, hsent1, hsent2⟩ :=
      send_states_proj true b2 now s
    rw [hatt1] at h
    rw [hatt2] at h2
    by_cases hc : (build_reports s).sentR1 ≠ (build_reports s).lastR1
    · by_cases hc2 : (build_reports s).sentR2 ≠ (build_reports s).lastR2
      · rw [if_pos hc2] at h2
        exact absurd h2 (by simp)
      · have hc2e : (build_reports s).sentR2 = (build_reports s).lastR2 := by
          by_contra hx
          exact hc2 hx
        exact send_states_flash_dev1 b2 now s hc hc2e
    · rw [if_neg hc] at h
      exact absurd h (by simp)

/-- C3 witness: a device 1 line change is pending (pin state bit of
J1_UP set, caches still zeroed, device 2 idle); a failed first attempt
keeps offering the candidate report, and a successful attempt advances
the cache and flashes the LED. -/
theorem send_states_retry_and_cache_law_witness :
    ((send_states false true 7 { initState with pinStates := 32 }).1.sentR1 =
      ({ initState with pinStates := 32 } : DJState).sentR1)
    ∧ ((send_states true true 9
        (send_states false true 7 { initState with pinStates := 32 }).1).2.1 =
        some { direction := 1, buttons := 0 })
    ∧ ((send_states true true 7 { initState with pinStates := 32 }).1.sentR1 =
        { direction := 1, buttons := 0 })
    ∧ ((send_states true true 7 { initState with pinStates := 32 }).1.ledState =
        !({ initState with pinStates := 32 } : DJState).ledState
       ∧ (send_states true true 7 { initState with pinStates := 32 }).1.blinkIntervalUs = BLINK_OFF
       ∧ (send_states true true 7 { initState with pinStates := 32 }).1.blinkTimeoutUs =
          time_after_us 7 EVENT_FLASH_US) :=
  ⟨(send_states_retry_and_cache_law { initState with pinStates := 32 }
      7 9 true true true true { direction := 1, buttons := 0 }).1,
   (send_states_retry_and_cache_law { initState with pinStates := 32 }
      7 9 true true true true { direction := 1, buttons := 0 }).2.2.1 (by decide),
   (send_states_retry_and_cache_law { initState with pinStates := 32 }
      7 9 true true true true { direction := 1, buttons := 0 }).2.2.2.1 (by decide),
   (send_states_retry_and_cache_law { initState with pinStates := 32 }
      7 9 true true true true { direction := 1, buttons := 0 }).2.2.2.2.2 (by decide) (by decide)⟩

/-- C4 counterexample: the claim states that reached applied to the
sentinel deadline 0 always evaluates false; at the concrete counter value
0 the code returns true, because the first disjunct t == 0 short-circuits
to true. -/
theorem reached_zero_is_true_at_zero : reached 0 0 = true := by decide

/-- C4 amended: reached applied to the sentinel deadline 0 evaluates true
for every counter value, i.e. an unset deadline is reported as already
passed; callers that need 0 to mean inactive guard the call with an
explicit nonzero test. -/
theorem reached_zero_always_true : ∀ now : Nat, reached 0 now = true := by
  intro now
  simp [reached]

/-- Helper: when the candidate report a tick assembled differs from the
sent cache the tick started with, send_states offers that candidate to
the transport. -/
theorem send_states_offer_of_ne (b1 b2 : Bool) (now : Nat) (s0 : DJState) :
    ((send_states b1 b2 now s0).1.lastR1 ≠ s0.sentR1 →
      (send_states b1 b2 now s0).2.1 = some (send_states b1 b2 now s0).1.lastR1)
    ∧ ((send_states b1 b2 now s0).1.lastR2 ≠ s0.sentR2 →
      (send_states b1 b2 now s0).2.2 = some (send_states b1 b2 now s0).1.lastR2) := by
  obtain ⟨hp, ht, hr1, hr2, hls, hatt1, hatt2, hsent1, hsent2⟩ :=
    send_states_proj b1 b2 now s0
  obtain ⟨hbp, hbt, hbs1, hbs2, hbl, hbbi, hbbt, hbn, hbls⟩ := build_reports_fields s0
  constructor
  · intro h
    rw [hr1] at h ⊢
    rw [hatt1, if_pos]
    rw [hbs1]
    exact fun he => h he.symm
  · intro h
    rw [hr2] at h ⊢
    rw [hatt2, if_pos]
    rw [hbs2]
    exact fun he => h he.symm

/-- C5 counterexample: the initial last-sent caches are not sentinels
distinct from every buildable report — each equals exactly the report
the builder assembles for the all-inactive pin state — and the first
tick after startup with idle raw input (all lines electrically high)
makes no send attempt for either device, refuting that a send attempt
is always made for the first report. -/
theorem init_sent_cache_is_reachable_report :
    initState.sentR1 =
      { direction := states2direction 0 inputMasks,
        buttons := if 0 &&& inputMasks.getD BTN 0 ≠ 0 then 1 else 0 }
    ∧ initState.sentR2 =
      { direction := states2direction 0 (inputMasks.drop PIN_NUM),
        buttons := if 0 &&& inputMasks.getD (PIN_NUM + BTN) 0 ≠ 0 then 1 else 0 }
    ∧ update_states_task 4294967295 0 true true initState = (initState, none, none) := by
  decide

/-- C5 amended: the initial last-sent cache of each device is the zero
report (direction 0, buttons 0), which coincides with the report built
for the all-inactive state, so no send is attempted at startup while the
debounced state stays idle; a send attempt is made on the first tick
whose assembled candidate differs from the zero report. -/
theorem init_cache_zero_and_first_send (raw now : Nat) (b1 b2 : Bool) :
    initState.sentR1 = { direction := 0, buttons := 0 }
    ∧ initState.sentR2 = { direction := 0, buttons := 0 }
    ∧ ((update_states_task raw now b1 b2 initState).1.lastR1 ≠ { direction := 0, buttons := 0 } →
        (update_states_task raw now b1 b2 initState).2.1 =
          some (update_states_task raw now b1 b2 initState).1.lastR1)
    ∧ ((update_states_task raw now b1 b2 initState).1.lastR2 ≠ { direction := 0, buttons := 0 } →
        (update_states_task raw now b1 b2 initState).2.2 =
          some (update_states_task raw now b1 b2 initState).1.lastR2) := by
  refine ⟨rfl, rfl, ?_, ?_⟩
  · intro h
    exact (send_states_offer_of_ne b1 b2 now _).1 h
  · intro h
    exact (send_states_offer_of_ne b1 b2 now _).2 h

/-- C5 witness: the first tick with the device 1 up line asserted (raw
word with GPIO 5 low) assembles direction north and offers it. -/
theorem init_cache_zero_and_first_send_witness :
    (update_states_task 4294967263 0 true true initState).2.1 =
      some (update_states_task 4294967263 0 true true initState).1.lastR1 :=
  (init_cache_zero_and_first_send 4294967263 0 true true).2.2.1 (by decide)

/-- C6 counterexample: triggering the event flash does not leave the
baseline blink mode variable untouched — from the startup state (mode
BLINK_NOT_MOUNTED) led_flash overwrites blink_interval_us. -/
theorem led_flash_overwrites_blink_mode :
    (led_flash 0 initState).blinkIntervalUs ≠ initState.blinkIntervalUs := by
  decide

/-- C6 amended: triggering the event flash toggles the LED, overwrites
the baseline blink mode variable with BLINK_OFF and arms the flash
deadline; when led_blinking_task later finds that deadline passed it
resets the mode to BLINK_OFF (LED dark, timeout cleared) — the
indicator ends up off rather than reverting to the pre-flash baseline
mode. -/
theorem led_flash_sets_mode_off (s s2 : DJState) (now now2 : Nat) :
    (led_flash now s).blinkIntervalUs = BLINK_OFF
    ∧ (led_flash now s).blinkTimeoutUs = time_after_us now EVENT_FLASH_US
    ∧ (led_flash now s).ledState = !s.ledState
    ∧ (s2.blinkTimeoutUs ≠ 0 → reached s2.blinkTimeoutUs now2 = true →
        led_blinking_task now2 s2 = led_set_blink_mode BLINK_OFF s2
        ∧ (led_blinking_task now2 s2).blinkIntervalUs = BLINK_OFF
        ∧ (led_blinking_task now2 s2).blinkTimeoutUs = 0
        ∧ (led_blinking_task now2 s2).ledState = false) := by
  refine ⟨rfl, rfl, rfl, fun h1 h2 => ?_⟩
  have heq : led_blinking_task now2 s2 = led_set_blink_mode BLINK_OFF s2 := by
    simp [led_blinking_task, h1, h2]
  exact ⟨heq, by rw [heq]; rfl, by rw [heq]; rfl, by rw [heq]; rfl⟩

/-- C6 witness: a state with an armed flash deadline 1, evaluated at
counter value 5000000 where the deadline has passed. -/
theorem led_flash_sets_mode_off_witness :
    led_blinking_task 5000000 { initState with blinkTimeoutUs := 1 } =
      led_set_blink_mode BLINK_OFF { initState with blinkTimeoutUs := 1 }
    ∧ (led_blinking_task 5000000 { initState with blinkTimeoutUs := 1 }).blinkIntervalUs = BLINK_OFF
    ∧ (led_blinking_task 5000000 { initState with blinkTimeoutUs := 1 }).blinkTimeoutUs = 0
    ∧ (led_blinking_task 5000000 { initState with blinkTimeoutUs := 1 }).ledState = false :=
  (led_flash_sets_mode_off initState { initState with blinkTimeoutUs := 1 } 0 5000000).2.2.2
    (by decide) (by decide)

/-- C9: a suspend notification followed by a resume notification puts
the indicator in the fast-blink settling mode with a finite armed
deadline when the device is mounted (and that mode is not the
NotConnected slow blink), and in the NotConnected slow-blink mode with
no deadline when it is not mounted. -/
theorem suspend_resume_restores_mode (s : DJState) (now : Nat) :
    ((tud_resume_cb true now (tud_suspend_cb s)).blinkIntervalUs = BLINK_FAST_US
     ∧ (tud_resume_cb true now (tud_suspend_cb s)).blinkTimeoutUs = time_after_us now (500 * 1000)
     ∧ (tud_resume_cb true now (tud_suspend_cb s)).blinkTimeoutUs ≠ 0
     ∧ (tud_resume_cb true now (tud_suspend_cb s)).blinkIntervalUs ≠ BLINK_NOT_MOUNTED)
    ∧ ((tud_resume_cb false now (tud_suspend_cb s)).blinkIntervalUs = BLINK_NOT_MOUNTED
       ∧ (tud_resume_cb false now (tud_suspend_cb s)).blinkTimeoutUs = 0) := by
  exact ⟨⟨rfl, rfl, time_after_us_ne_zero now (500 * 1000),
    by show BLINK_FAST_US ≠ BLINK_NOT_MOUNTED; decide⟩, rfl, rfl⟩

/-- C9 witness: the suspend and resume sequence evaluated from the
startup state at counter value 3, for both connection answers. -/
theorem suspend_resume_restores_mode_witness :
    (tud_resume_cb true 3 (tud_suspend_cb initState)).blinkIntervalUs = BLINK_FAST_US
    ∧ (tud_resume_cb true 3 (tud_suspend_cb initState)).blinkTimeoutUs ≠ 0
    ∧ (tud_resume_cb false 3 (tud_suspend_cb initState)).blinkIntervalUs = BLINK_NOT_MOUNTED :=
  ⟨(suspend_resume_restores_mode initState 3).1.1,
   (suspend_resume_restores_mode initState 3).1.2.2.1,
   (suspend_resume_restores_mode initState 3).2.1⟩

/-- C7 counterexample: the claim asserts a correct passed/not-passed
answer for every deadline time_after_us produces.  Arming the maximal
clamped delta MAX_DELAY_US at the even counter value 0 forces the low
bit and yields an armed delay of MAX_DELAY_US + 1, one past the reach
horizon, so the freshly armed deadline is reported as already passed
at elapsed time 0. -/
theorem time_after_us_full_horizon_instantly_reached :
    (U32 + time_after_us 0 MAX_DELAY_US - 0) % U32 = MAX_DELAY_US + 1
    ∧ reached (time_after_us 0 MAX_DELAY_US) ((0 + 0) % U32) = true := by
  decide

/-- C7 amended: a deadline produced by time_after_us is never the
sentinel 0 and the delta is clamped to MAX_DELAY_US, for any delta; and
whenever the armed delay (deadline minus arming time, mod 2 to the 32)
is at most MAX_DELAY_US — which holds except when the clamped delta
equals MAX_DELAY_US and now plus delta is even, where the forced low
bit pushes the armed delay one past the horizon — the reached check
answers correctly across counter wraparound: not passed while the
elapsed time is at most the armed delay, passed once the elapsed time
exceeds it and is still within one horizon of wrap distance. -/
theorem time_after_us_spec (now us : Nat) (hn : now < U32) :
    time_after_us now us ≠ 0
    ∧ (MAX_DELAY_US ≤ us → time_after_us now us = time_after_us now MAX_DELAY_US)
    ∧ ((U32 + time_after_us now us - now) % U32 ≤ MAX_DELAY_US →
        ∀ e : Nat,
          (e ≤ (U32 + time_after_us now us - now) % U32 →
            reached (time_after_us now us) ((now + e) % U32) = false)
          ∧ ((U32 + time_after_us now us - now) % U32 < e →
              e < U32 - MAX_DELAY_US →
              reached (time_after_us now us) ((now + e) % U32) = true)) := by
  refine ⟨time_after_us_ne_zero now us, ?_, ?_⟩
  · intro h
    have hc : (if us > MAX_DELAY_US then MAX_DELAY_US else us) =
        (if MAX_DELAY_US > MAX_DELAY_US then MAX_DELAY_US else MAX_DELAY_US) := by
      simp only [MAX_DELAY_US, BLINK_SUSPENDED] at *
      split_ifs <;> omega
    simp only [time_after_us]
    rw [hc]
  · intro hd e
    have hne := time_after_us_ne_zero now us
    constructor
    · intro he
      simp only [reached, Bool.or_eq_false_iff, beq_eq_false_iff_ne, ne_eq,
        decide_eq_false_iff_not, not_lt]
      refine ⟨hne, ?_⟩
      simp only [time_after_us, MAX_DELAY_US, BLINK_SUSPENDED, U32] at *
      by_cases hus : us > 2500 * 1000 <;>
        simp only [hus, if_true, if_false, ite_true, ite_false] at * <;>
        rw [lor_one_eq] at * <;> omega
    · intro he1 he2
      simp only [reached, Bool.or_eq_true, decide_eq_true_eq]
      right
      simp only [time_after_us, MAX_DELAY_US, BLINK_SUSPENDED, U32] at *
      by_cases hus : us > 2500 * 1000 <;>
        simp only [hus, if_true, if_false, ite_true, ite_false] at * <;>
        rw [lor_one_eq] at * <;> omega

/-- C7 witness: a deadline armed 2 seconds before the counter wraps at
the 2 to the 32 boundary, checked 1.5 seconds later (not passed, still
before the wrapped deadline) and 3 seconds later (passed, after the
wrap). -/
theorem time_after_us_spec_witness :
    reached (time_after_us 4293967296 2000000) ((4293967296 + 1500000) % U32) = false
    ∧ reached (time_after_us 4293967296 2000000) ((4293967296 + 3000000) % U32) = true :=
  ⟨((time_after_us_spec 4293967296 2000000 (by decide)).2.2 (by decide) 1500000).1
      (by decide),
   ((time_after_us_spec 4293967296 2000000 (by decide)).2.2 (by decide) 3000000).2
      (by decide) (by decide)⟩

/-- After any send_states run the last_states static equals the pin
states. -/
theorem send_states_sync1 (b1 b2 : Bool) (now : Nat) (s0 : DJState) :
    (send_states b1 b2 now s0).1.lastStates = (send_states b1 b2 now s0).1.pinStates := by
  obtain ⟨hp, ht, hr1, hr2, hls, _, _, _, _⟩ := send_states_proj b1 b2 now s0
  rw [hp, hls]

/-- After a send_states run in which every attempted send succeeded,
both sent caches equal the candidate reports. -/
theorem send_states_sent_sync (now : Nat) (s0 : DJState) :
    (send_states true true now s0).1.sentR1 = (send_states true true now s0).1.lastR1
    ∧ (send_states true true now s0).1.sentR2 = (send_states true true now s0).1.lastR2 := by
  obtain ⟨hp, ht, hr1, hr2, hls, hatt1, hatt2, hsent1, hsent2⟩ :=
    send_states_proj true true now s0
  obtain ⟨hbp, hbt, hbs1, hbs2, _, _, _, _, _⟩ := build_reports_fields s0
  constructor
  · rw [hsent1, hr1]
    by_cases hc : (build_reports s0).sentR1 ≠ (build_reports s0).lastR1
    · rw [if_pos ⟨hc, rfl⟩]
    · rw [if_neg]
      · push_neg at hc
        rw [← hbs1, hc]
      · intro hk
        exact hc hk.1
  · rw [hsent2, hr2]
    by_cases hc : (build_reports s0).sentR2 ≠ (build_reports s0).lastR2
    · rw [if_pos ⟨hc, rfl⟩]
    · rw [if_neg]
      · push_neg at hc
        rw [← hbs2, hc]
      · intro hk
        exact hc hk.1

/-- On a fully synchronized state (diff empty, caches equal to the
candidates) send_states attempts nothing and changes nothing. -/
theorem send_states_noop (b1 b2 : Bool) (now : Nat) (s0 : DJState)
    (h1 : s0.lastStates = s0.pinStates)
    (h2 : s0.sentR1 = s0.lastR1) (h3 : s0.sentR2 = s0.lastR2) :
    send_states b1 b2 now s0 = (s0, none, none) := by
  have hbr := build_reports_of_sync s0 h1
  simp [send_states, hbr, h2, h3]

/-- C8 counterexample: the claim asserts that a tick re-run with raw
input identical to the previous tick, after the previous tick sent
successfully, performs no send.  Start with the timeout of line 0
(device 1 up) armed and pending (value 1020001 at counter 1000000) and
raw input asserting both up and the button of device 1.  The first tick
suppresses the up change, commits the button, and successfully sends
the report (direction 0, buttons 1).  The second tick at counter
1100000 with the identical raw word finds the timeout passed, commits
the suppressed up change, and performs a second send (direction 1,
buttons 1). -/
theorem tick_not_idempotent_with_pending_debounce :
    (update_states_task 4160749535 1000000 true true
        { initState with pinTimeouts := [1020001, 0, 0, 0, 0, 0, 0, 0, 0, 0] }).2.1 =
      some { direction := 0, buttons := 1 }
    ∧ (update_states_task 4160749535 1100000 true true
        (update_states_task 4160749535 1000000 true true
          { initState with pinTimeouts := [1020001, 0, 0, 0, 0, 0, 0, 0, 0, 0] }).1).2.1 =
      some { direction := 1, buttons := 1 } := by
  decide

/-- C8 amended: a tick re-run with unchanged raw input after a tick
whose sends all succeeded performs no send call for either device and
leaves the state unchanged, provided the first tick suppressed no line
change, i.e. its committed pin states equal the debounced raw input:
the debounce step then changes no line state, the candidate reports
equal the last-sent caches, and the diff finds nothing to send. -/
theorem tick_idempotent_when_no_suppressed_change
    (s : DJState) (raw now now2 : Nat) (b1 b2 : Bool)
    (h : (update_states_task raw now true true s).1.pinStates =
      ((U32 - 1) ^^^ raw) &&& PIN_MASK) :
    update_states_task raw now2 b1 b2 (update_states_task raw now true true s).1 =
      ((update_states_task raw now true true s).1, none, none) := by
  set s1 := (update_states_task raw now true true s).1 with hs1
  have hsync : s1.lastStates = s1.pinStates := send_states_sync1 true true now _
  have hsent := send_states_sent_sync now
    ({ s with
        pinStates := (debounceLoop now 32
          ((((U32 - 1) ^^^ raw) &&& PIN_MASK) ^^^ s.pinStates) s.pinStates s.pinTimeouts).1,
        pinTimeouts := (debounceLoop now 32
          ((((U32 - 1) ^^^ raw) &&& PIN_MASK) ^^^ s.pinStates) s.pinStates s.pinTimeouts).2 })
  have hch : (((U32 - 1) ^^^ raw) &&& PIN_MASK) ^^^ s1.pinStates = 0 := by
    rw [h, Nat.xor_self]
  show update_states_task raw now2 b1 b2 s1 = (s1, none, none)
  simp only [update_states_task]
  rw [hch, debounceLoop_zero]
  exact send_states_noop b1 b2 now2 s1 hsync hsent.1 hsent.2

/-- C8 witness: a first tick from startup that commits the device 1 up
line (all timeouts unset) and sends successfully; the second tick with
the identical raw word attempts nothing and leaves the state fixed. -/
theorem tick_idempotent_when_no_suppressed_change_witness :
    update_states_task 4294967263 9 true true
        (update_states_task 4294967263 0 true true initState).1 =
      ((update_states_task 4294967263 0 true true initState).1, none, none) :=
  tick_idempotent_when_no_suppressed_change initState 4294967263 0 9 true true (by decide)

/-- C10: the de Bruijn bit-position function maps every power 2 to the k
back to k for k below 32; every bit position set in PIN_MASK is mapped by
gpio2pin to a logical line index of at most 9, so the pin_timeouts array
access of the debounce loop stays in bounds; and gpio2pin sends each
GPIO of line index L back to L. -/
theorem fast_log2_and_gpio2pin_correct :
    (∀ k : Fin 32, fast_log2_of_pow2 (2 ^ (k : Nat)) = (k : Nat))
    ∧ (∀ i : Fin 32, PIN_MASK.testBit (i : Nat) = true → gpio2pin (i : Nat) ≤ 9)
    ∧ (∀ l : Fin 10, gpio2pin (inputGPIOs.getD (l : Nat) 0) = (l : Nat)) := by
  refine ⟨by decide, by decide, by decide⟩

/-- C10 witness: the three parts of the theorem evaluated at concrete
inputs, bit 27 for the logarithm, GPIO 27 (the device 1 button) for the
bound, and line 4 for the inverse mapping. -/
theorem fast_log2_and_gpio2pin_correct_witness :
    fast_log2_of_pow2 (2 ^ ((27 : Fin 32) : Nat)) = ((27 : Fin 32) : Nat)
    ∧ gpio2pin ((27 : Fin 32) : Nat) ≤ 9
    ∧ gpio2pin (inputGPIOs.getD (((4 : Fin 10)) : Nat) 0) = ((4 : Fin 10) : Nat) :=
  ⟨fast_log2_and_gpio2pin_correct.1 27,
   fast_log2_and_gpio2pin_correct.2.1 27 (by decide),
   fast_log2_and_gpio2pin_correct.2.2 4⟩

end DualJoy
